import Mathlib

/-!
Verification development for the retry orchestrator and bulk dispatch engine of
the gocb client (src/retry.go and the kvBulkProviderPs file).

Modelling conventions:
* Go `time.Duration` (an int64 nanosecond count) and `time.Time` instants are
  modelled as unbounded `Int` nanoseconds; no claim touches int64 overflow of a
  duration.  The zero `time.Time{}` value is modelled as `0`, and the current
  instant `time.Now()` is an explicit parameter.
* The `uint32` attempt counter wraps modulo `2 ^ 32`, exactly as Go's `w.attempts++`.
* Interface values that may be `nil` become `Option`; interface method tables
  (`RetryStrategy`, `RetryAction`) become functions / small closed sums, since the
  repository's own implementations are exactly those.
* `gocbcore.ControlledBackoff` lives in the external transport library (out of
  scope per the spec); it is an arbitrary fixed function parameter
  `controlledBackoff : Nat → Int` of the orchestrator model.
-/

/-- RetryReason, from src/retry.go: an immutable value with the three observations
the interface exposes.  Go compares reasons with interface equality (`==`), which
for these value types is structural equality, hence `DecidableEq`. -/
structure RetryReason where
  allowsNonIdempotentRetry : Bool
  alwaysRetry : Bool
  description : String
deriving DecidableEq

/-- RetryAction, from src/retry.go: either `NoRetryRetryAction` or
`WithDurationRetryAction` (the only implementations in the repository).
The duration is a `time.Duration`, i.e. a signed nanosecond count. -/
inductive RetryAction where
  | noRetry
  | withDuration (withDuration : Int)
deriving DecidableEq

/-- The `Duration()` method of a RetryAction (src/retry.go lines 106-118):
`NoRetryRetryAction` yields 0, `WithDurationRetryAction` yields its field. -/
def RetryAction.duration : RetryAction → Int
  | RetryAction.noRetry => 0
  | RetryAction.withDuration d => d

/-- The observations the `RetryRequest` interface exposes to a strategy
(src/retry.go lines 14-19). -/
structure RetryRequest where
  retryAttempts : Nat
  identifier : String
  idempotent : Bool
  retryReasons : List RetryReason

/-- RetryStrategy (src/retry.go lines 121-123): given the request's observable
state and a reason, produce a RetryAction.  The Go method may return a `nil`
interface value, hence `Option`. -/
def RetryStrategy : Type :=
  RetryRequest → RetryReason → Option RetryAction

/-- BestEffortRetryStrategy (src/retry.go lines 130-132), holding its backoff
calculator `func(retryAttempts uint32) time.Duration`. -/
structure BestEffortRetryStrategy where
  BackoffCalculator : Nat → Int

/-- RetryAfter of BestEffortRetryStrategy (src/retry.go lines 145-151): retry with
the calculator's duration when the request is idempotent or the reason allows
non-idempotent retry, otherwise a `NoRetryRetryAction`. -/
def BestEffortRetryStrategy.RetryAfter (rs : BestEffortRetryStrategy)
    (req : RetryRequest) (reason : RetryReason) : RetryAction :=
  if req.idempotent || reason.allowsNonIdempotentRetry then
    RetryAction.withDuration (rs.BackoffCalculator req.retryAttempts)
  else
    RetryAction.noRetry

/-- The mutable per-request state `retriableRequestPs` (src/retry.go lines 198-209).
The `sendFn` and `rootTraceContext` fields are external collaborator handles with
no bearing on any claim and are elided; the dispatch outcome is supplied as an
explicit trace in the retry-loop model below. -/
structure RetriableRequestPs where
  reasons : List RetryReason
  attempts : Nat
  operation : String
  identifier : String
  idempotent : Bool
  strategy : Option RetryStrategy

/-- The `RetryRequest` view a `retriableRequestPs` presents through its
`RetryAttempts/Identifier/Idempotent/RetryReasons` methods
(src/retry.go lines 223-237). -/
def RetriableRequestPs.view (w : RetriableRequestPs) : RetryRequest :=
  { retryAttempts := w.attempts
    identifier := w.identifier
    idempotent := w.idempotent
    retryReasons := w.reasons }

/-- recordRetryAttempt (src/retry.go lines 251-265): increment the uint32 attempt
counter (wrapping modulo `2 ^ 32`), then append the reason at the end of the
reasons list only if it is not already present. -/
def RetriableRequestPs.recordRetryAttempt (w : RetriableRequestPs)
    (reason : RetryReason) : RetriableRequestPs :=
  let w2 := { w with attempts := (w.attempts + 1) % 2 ^ 32 }
  if reason ∈ w2.reasons then w2
  else { w2 with reasons := w2.reasons ++ [reason] }

/-- retryOrchMaybeRetry (src/retry.go lines 165-196).  `controlledBackoff` stands
for the external `gocbcore.ControlledBackoff`; `now` is the instant `time.Now()`
would observe.  Returns (shouldRetry, wake time, updated request state); the Go
function mutates the request, modelled by returning the new state.  The `nil`
wake `time.Time{}` of the no-retry paths is the zero instant `0`. -/
def retryOrchMaybeRetry (controlledBackoff : Nat → Int) (req : RetriableRequestPs)
    (reason : RetryReason) (now : Int) : Bool × Int × RetriableRequestPs :=
  if reason.alwaysRetry then
    let duration := controlledBackoff req.attempts
    (true, now + duration, req.recordRetryAttempt reason)
  else
    match req.strategy with
    | none => (false, 0, req)
    | some strategy =>
      match strategy req.view reason with
      | none => (false, 0, req)
      | some action =>
        let duration := action.duration
        if duration = 0 then (false, 0, req)
        else (true, now + duration, req.recordRetryAttempt reason)

/-- A run of consecutive retry decisions (the shape of claim C4): each step
supplies the classified reason and the instant of the decision.  The run stops at
the first decision that does not retry; the Bool result tells whether every
decision in the list resulted in retry. -/
def runRetries (controlledBackoff : Nat → Int) (req : RetriableRequestPs) :
    List (RetryReason × Int) → RetriableRequestPs × Bool
  | [] => (req, true)
  | (reason, now) :: rest =>
    let r := retryOrchMaybeRetry controlledBackoff req reason now
    if r.1 then runRetries controlledBackoff r.2.2 rest
    else (r.2.2, false)

/-! Concrete instances used by witnesses and counterexamples. -/

/-- A backoff calculator used to instantiate the `controlledBackoff` parameter in
witnesses. -/
def cbOne : Nat → Int := fun _ => 1

/-- A reason with `AlwaysRetry() = true`. -/
def alwaysReason : RetryReason :=
  { allowsNonIdempotentRetry := true, alwaysRetry := true, description := "always" }

/-- A reason with `AlwaysRetry() = false` and `AllowsNonIdempotentRetry() = true`. -/
def plainReason : RetryReason :=
  { allowsNonIdempotentRetry := true, alwaysRetry := false, description := "plain" }

/-- A fresh request with no configured strategy. -/
def freshReq : RetriableRequestPs :=
  { reasons := [], attempts := 0, operation := "op", identifier := "abc123"
    idempotent := false, strategy := none }

/-- A strategy returning an action with a negative duration (-1 ns), legal for a
`WithDurationRetryAction` since `time.Duration` is signed. -/
def negStrategy : RetryStrategy := fun _ _ => some (RetryAction.withDuration (-1))

/-- A request configured with `negStrategy`. -/
def negReq : RetriableRequestPs := { freshReq with strategy := some negStrategy }

/-- A second distinct always-retry reason, for witnesses exercising the reason
set. -/
def alwaysReason2 : RetryReason :=
  { allowsNonIdempotentRetry := true, alwaysRetry := true, description := "always2" }

/-! Model of the retry loop handleRetriableRequest (src/retry.go lines 267-322).
The dispatch transport, the error classifier `mapPsErrorToGocbError`, the
`errors.Is(·, ErrTimeout)` test and the reason classifier are external to the
provided sources and appear as function parameters; each loop iteration's
external inputs are supplied as a trace of `StepInput`s. -/

/-- Outcome of the select (src/retry.go lines 300-317) racing the backoff timer
against ctx.Done(): the timer fired, or the context finished with a
deadline-exceeded cause, or with any other cause. -/
inductive WaitOutcome where
  | timerFired
  | ctxDeadlineExceeded
  | ctxCanceledOther
deriving DecidableEq

/-- One iteration's external inputs: the outcome of req.Send(ctx), the instant at
which the response is handled (used for this iteration's time.Since(createdTime)
readings and wake computation), and how the backoff select resolved when it is
reached. -/
structure StepInput (V E : Type) where
  sendResult : Except E V
  now : Int
  waitOutcome : WaitOutcome

/-- Modelled from the spec: the inner cause stored in a TimeoutError is either
the raw dispatch error (the definitive-timeout branch stores `err` itself) or
the generic ErrUnambiguousTimeout ran-out-of-time-while-waiting-to-retry marker;
both sentinels are declared outside the provided sources. -/
inductive InnerCause (E : Type) where
  | fromSend (e : E)
  | unambiguousTimeout

/-- Modelled from the spec: the TimeoutError aggregate, carrying inner cause,
operation name, correlation identifier (the Go field is named Opaque), elapsed
time since request creation, the reason set, and the attempt count; the struct
itself is declared outside the provided sources. -/
structure TimeoutError (E : Type) where
  innerError : InnerCause E
  operationID : String
  correlationId : String
  timeObserved : Int
  retryReasons : List RetryReason
  retryAttempts : Nat

/-- The terminations of handleRetriableRequest: success, a TimeoutError, the
classified error returned directly (non-retryable failure), or the generic
makeGenericError(ErrRequestCanceled, nil) outcome. -/
inductive HandleOutcome (V E G : Type) where
  | success (res : V)
  | timedOut (e : TimeoutError E)
  | failedErr (e : G)
  | cancelled

/-- handleRetriableRequest (src/retry.go lines 267-322): dispatch, classify a
failure with the idempotency-aware mapper, return a TimeoutError if the
classified error is a timeout, otherwise resolve a retry reason (no reason:
return the classified error), consult retryOrchMaybeRetry (no retry: return the
classified error), then wait: timer fired loops with the recorded state, a
deadline-exceeded context yields a TimeoutError with the generic marker, any
other cancellation yields the cancelled outcome.  `none` means the trace ended
while the loop was still running. -/
def handleRetriableRequest {V E G : Type} (cb : Nat → Int) (mapErr : E → Bool → G)
    (isTimeoutErr : G → Bool) (retryReasonFn : G → Option RetryReason)
    (createdTime : Int) (req : RetriableRequestPs) :
    List (StepInput V E) → Option (HandleOutcome V E G)
  | [] => none
  | step :: rest =>
    match step.sendResult with
    | Except.ok res => some (HandleOutcome.success res)
    | Except.error err =>
      let gocbErr := mapErr err req.idempotent
      if isTimeoutErr gocbErr then
        some (HandleOutcome.timedOut
          { innerError := InnerCause.fromSend err
            operationID := req.operation
            correlationId := req.identifier
            timeObserved := step.now - createdTime
            retryReasons := req.reasons
            retryAttempts := req.attempts })
      else
        match retryReasonFn gocbErr with
        | none => some (HandleOutcome.failedErr gocbErr)
        | some retryReason =>
          let r := retryOrchMaybeRetry cb req retryReason step.now
          if r.1 then
            match step.waitOutcome with
            | WaitOutcome.timerFired =>
              handleRetriableRequest cb mapErr isTimeoutErr retryReasonFn createdTime r.2.2 rest
            | WaitOutcome.ctxDeadlineExceeded =>
              some (HandleOutcome.timedOut
                { innerError := InnerCause.unambiguousTimeout
                  operationID := r.2.2.operation
                  correlationId := r.2.2.identifier
                  timeObserved := step.now - createdTime
                  retryReasons := r.2.2.reasons
                  retryAttempts := r.2.2.attempts })
            | WaitOutcome.ctxCanceledOther => some HandleOutcome.cancelled
          else
            some (HandleOutcome.failedErr gocbErr)

/-- Error mapper instance for witnesses: the classified error keeps the raw
code. -/
def mapErrW : Nat → Bool → Nat := fun e _ => e

/-- Timeout predicate instance for witnesses: code 7 is the timeout error. -/
def isTimeoutErrW : Nat → Bool := fun g => g == 7

/-- Reason classifier instance for witnesses: code 3 resolves to plainReason. -/
def retryReasonFnW : Nat → Option RetryReason :=
  fun g => if g == 3 then some plainReason else none

/-- A strategy granting a 1 ns retry for every request and reason. -/
def posStrategy : RetryStrategy := fun _ _ => some (RetryAction.withDuration 1)

/-- A request configured with posStrategy. -/
def posReq : RetriableRequestPs := { freshReq with strategy := some posStrategy }

/-- Witness step: dispatch fails with the timeout-classified code 7 at instant
5. -/
def stepTimeoutW : StepInput Nat Nat :=
  { sendResult := Except.error 7, now := 5, waitOutcome := WaitOutcome.timerFired }

/-- Witness step: retryable code 3 at instant 9, wait cut by the deadline. -/
def stepDeadlineW : StepInput Nat Nat :=
  { sendResult := Except.error 3, now := 9, waitOutcome := WaitOutcome.ctxDeadlineExceeded }

/-- Witness step: retryable code 3 at instant 9, wait cut by another
cancellation. -/
def stepCancelW : StepInput Nat Nat :=
  { sendResult := Except.error 3, now := 9, waitOutcome := WaitOutcome.ctxCanceledOther }

/-- The TimeoutError produced by the dispatch-timeout witness trace. -/
def eW : TimeoutError Nat :=
  { innerError := InnerCause.fromSend 7
    operationID := freshReq.operation
    correlationId := freshReq.identifier
    timeObserved := stepTimeoutW.now - 0
    retryReasons := freshReq.reasons
    retryAttempts := freshReq.attempts }

/-! Model of the bulk dispatch engine `kvBulkProviderPs` (the unnamed provider
file).  Each per-kind execution builds a protocol request from the operation's
fields and invokes the remote call; the request travels to the external
transport and is not observable in any claim, so each operation instead carries
the response the client call would return (`clientResult`).  The worker pool and
channels are concurrency plumbing; the per-item processing it performs is the
sequential `workerProcess` below, and `kvBulkDo` records the structural facts of
`Do` (timeout choice, signal-channel capacity, one completion with one finish
call per op, nil batch-level error). -/

/-- An opaque wire-level error returned by the protostellar client. -/
structure PsError where
  code : Nat
deriving DecidableEq

/-- The error stored in a bulk operation's error slot: either the classified
remote-call error or a raw transcoder error (`item.Err = err` stores the codec
error unclassified). -/
inductive BulkError where
  | psError (e : PsError) (idempotent : Bool)
  | codecError (code : Nat)
deriving DecidableEq

/-- Modelled from the spec: `mapPsErrorToGocbError`, the shared idempotency-aware
error classifier, is declared outside the provided sources; the spec treats it
as a black-box `classify(error, idempotent bool)`, so it is modelled freely,
keeping the raw error and the idempotency flag it was passed observable. -/
def mapPsErrorToGocbError (err : PsError) (idempotent : Bool) : BulkError :=
  BulkError.psError err idempotent

/-- A wire mutation token. -/
structure MutationTokenPb where
  vbucketId : Nat
  vbucketUuid : Nat
  seqNo : Nat
  bucketName : String
deriving DecidableEq

/-- Modelled from the spec: `psMutToGoCbMut` converts the wire mutation token to
the public token type; the spec only requires mutation results to carry the
server-assigned ordering token, so the conversion is the identity embedding
(nil wire token giving nil public token). -/
def psMutToGoCbMut (mt : Option MutationTokenPb) : Option MutationTokenPb := mt

/-- The oneof Content of a GetResponse / GetAndTouchResponse: uncompressed
bytes, compressed bytes, or absent (nil oneof, leaving the content slice nil).
Both response types carry the same fields used here, so one type models both. -/
inductive PsContent where
  | contentUncompressed (bytes : List Nat)
  | contentCompressed (bytes : List Nat)
  | unset
deriving DecidableEq

/-- The fields of GetResponse / GetAndTouchResponse consumed by the provider. -/
structure GetResponsePb where
  cas : Nat
  content : PsContent
  contentFlags : Nat
deriving DecidableEq

/-- The fields of the mutation-shaped responses (Touch/Remove/Upsert/Insert/
Replace/Append/Prepend) consumed by the provider. -/
structure MutationResponsePb where
  cas : Nat
  mutationToken : Option MutationTokenPb
deriving DecidableEq

/-- The fields of IncrementResponse / DecrementResponse consumed by the
provider; Content is an int64. -/
structure CounterResponsePb where
  cas : Nat
  content : Int
  mutationToken : Option MutationTokenPb
deriving DecidableEq

/-- Go's uint64(x) conversion of an int64 value. -/
def uint64OfInt (i : Int) : Nat := (i % (2 ^ 64 : Int)).toNat

/-- A Transcoder's Encode method: value ↦ (bytes, flags), or a codec error.
Values and codec error causes are abstract codes. -/
def Transcoder : Type := Nat → Except Nat (List Nat × Nat)

/-- GetOp: key plus the response its p.client.Get call would return. -/
structure GetOp where
  id : String
  clientResult : Except PsError GetResponsePb

/-- GetAndTouchOp: key, expiry, and the p.client.GetAndTouch response. -/
structure GetAndTouchOp where
  id : String
  expiry : Int
  clientResult : Except PsError GetResponsePb

/-- TouchOp: key, expiry, and the p.client.Touch response. -/
structure TouchOp where
  id : String
  expiry : Int
  clientResult : Except PsError MutationResponsePb

/-- RemoveOp: key, optional CAS, and the p.client.Remove response. -/
structure RemoveOp where
  id : String
  cas : Nat
  clientResult : Except PsError MutationResponsePb

/-- UpsertOp: key, value to encode, expiry, and the p.client.Upsert response. -/
structure UpsertOp where
  id : String
  value : Nat
  expiry : Int
  clientResult : Except PsError MutationResponsePb

/-- InsertOp: key, value to encode, expiry, and the p.client.Insert response. -/
structure InsertOp where
  id : String
  value : Nat
  expiry : Int
  clientResult : Except PsError MutationResponsePb

/-- ReplaceOp: key, value to encode, CAS, expiry, and the p.client.Replace
response. -/
structure ReplaceOp where
  id : String
  value : Nat
  cas : Nat
  expiry : Int
  clientResult : Except PsError MutationResponsePb

/-- AppendOp: key, raw bytes, and the p.client.Append response. -/
structure AppendOp where
  id : String
  value : List Nat
  clientResult : Except PsError MutationResponsePb

/-- PrependOp: key, raw bytes, and the p.client.Prepend response. -/
structure PrependOp where
  id : String
  value : List Nat
  clientResult : Except PsError MutationResponsePb

/-- IncrementOp: key, delta, initial, expiry, and the p.client.Increment
response. -/
structure IncrementOp where
  id : String
  delta : Int
  initial : Nat
  expiry : Int
  clientResult : Except PsError CounterResponsePb

/-- DecrementOp: key, delta, initial, expiry, and the p.client.Decrement
response. -/
structure DecrementOp where
  id : String
  delta : Int
  initial : Nat
  expiry : Int
  clientResult : Except PsError CounterResponsePb

/-- The closed BulkOp variant dispatched by the worker's type switch. -/
inductive BulkOp where
  | get (item : GetOp)
  | getAndTouch (item : GetAndTouchOp)
  | touch (item : TouchOp)
  | remove (item : RemoveOp)
  | upsert (item : UpsertOp)
  | insert (item : InsertOp)
  | replace (item : ReplaceOp)
  | append (item : AppendOp)
  | prepend (item : PrependOp)
  | increment (item : IncrementOp)
  | decrement (item : DecrementOp)

/-- The result slot of a bulk operation: a GetResult (CAS, contents, flags), a
MutationResult (token, CAS), or a CounterResult (token, CAS, value). -/
inductive BulkResult where
  | getResult (cas : Nat) (contents : List Nat) (flags : Nat)
  | mutationResult (mt : Option MutationTokenPb) (cas : Nat)
  | counterResult (mt : Option MutationTokenPb) (cas : Nat) (content : Nat)
deriving DecidableEq

/-- A processed bulk operation as handed back on the signal channel: the op,
its written-once result and error slots, the warnings it logged, and how many
times its finish callback has been invoked. -/
structure CompletedOp where
  op : BulkOp
  result : Option BulkResult
  err : Option BulkError
  warnLogs : List String
  finishCount : Nat

/-- The diagnostic warning logged for a compressed payload. -/
def compressedWarning : String :=
  "couchbase2 does not currently support compressed content, passing through compressed value"

/-- kvBulkProviderPs.Get: on a failed remote call, classify with idempotent =
true; on success take content from either oneof variant (compressed bytes pass
through with a warning), CAS and flags from the response. -/
def bulkGetPs (_transcoder : Transcoder) (item : GetOp) : CompletedOp :=
  match item.clientResult with
  | Except.error e =>
    { op := BulkOp.get item, result := none,
      err := some (mapPsErrorToGocbError e true), warnLogs := [], finishCount := 0 }
  | Except.ok res =>
    let contentAndLogs : List Nat × List String :=
      match res.content with
      | PsContent.contentUncompressed b => (b, [])
      | PsContent.contentCompressed b => (b, [compressedWarning])
      | PsContent.unset => ([], [])
    { op := BulkOp.get item,
      result := some (BulkResult.getResult res.cas contentAndLogs.1 res.contentFlags),
      err := none, warnLogs := contentAndLogs.2, finishCount := 0 }

/-- kvBulkProviderPs.GetAndTouch: as Get, but a failed remote call is classified
with idempotent = false. -/
def bulkGetAndTouchPs (_transcoder : Transcoder) (item : GetAndTouchOp) : CompletedOp :=
  match item.clientResult with
  | Except.error e =>
    { op := BulkOp.getAndTouch item, result := none,
      err := some (mapPsErrorToGocbError e false), warnLogs := [], finishCount := 0 }
  | Except.ok res =>
    let contentAndLogs : List Nat × List String :=
      match res.content with
      | PsContent.contentUncompressed b => (b, [])
      | PsContent.contentCompressed b => (b, [compressedWarning])
      | PsContent.unset => ([], [])
    { op := BulkOp.getAndTouch item,
      result := some (BulkResult.getResult res.cas contentAndLogs.1 res.contentFlags),
      err := none, warnLogs := contentAndLogs.2, finishCount := 0 }

/-- kvBulkProviderPs.Touch. -/
def bulkTouchPs (item : TouchOp) : CompletedOp :=
  match item.clientResult with
  | Except.error e =>
    { op := BulkOp.touch item, result := none,
      err := some (mapPsErrorToGocbError e false), warnLogs := [], finishCount := 0 }
  | Except.ok res =>
    { op := BulkOp.touch item,
      result := some (BulkResult.mutationResult (psMutToGoCbMut res.mutationToken) res.cas),
      err := none, warnLogs := [], finishCount := 0 }

/-- kvBulkProviderPs.Remove. -/
def bulkRemovePs (item : RemoveOp) : CompletedOp :=
  match item.clientResult with
  | Except.error e =>
    { op := BulkOp.remove item, result := none,
      err := some (mapPsErrorToGocbError e false), warnLogs := [], finishCount := 0 }
  | Except.ok res =>
    { op := BulkOp.remove item,
      result := some (BulkResult.mutationResult (psMutToGoCbMut res.mutationToken) res.cas),
      err := none, warnLogs := [], finishCount := 0 }

/-- kvBulkProviderPs.Upsert: encode first (a codec failure stores the raw error
and completes the item), then the remote call. -/
def bulkUpsertPs (transcoder : Transcoder) (item : UpsertOp) : CompletedOp :=
  match transcoder item.value with
  | Except.error e =>
    { op := BulkOp.upsert item, result := none,
      err := some (BulkError.codecError e), warnLogs := [], finishCount := 0 }
  | Except.ok _encoded =>
    match item.clientResult with
    | Except.error e =>
      { op := BulkOp.upsert item, result := none,
        err := some (mapPsErrorToGocbError e false), warnLogs := [], finishCount := 0 }
    | Except.ok res =>
      { op := BulkOp.upsert item,
        result := some (BulkResult.mutationResult (psMutToGoCbMut res.mutationToken) res.cas),
        err := none, warnLogs := [], finishCount := 0 }

/-- kvBulkProviderPs.Insert: as Upsert. -/
def bulkInsertPs (transcoder : Transcoder) (item : InsertOp) : CompletedOp :=
  match transcoder item.value with
  | Except.error e =>
    { op := BulkOp.insert item, result := none,
      err := some (BulkError.codecError e), warnLogs := [], finishCount := 0 }
  | Except.ok _encoded =>
    match item.clientResult with
    | Except.error e =>
      { op := BulkOp.insert item, result := none,
        err := some (mapPsErrorToGocbError e false), warnLogs := [], finishCount := 0 }
    | Except.ok res =>
      { op := BulkOp.insert item,
        result := some (BulkResult.mutationResult (psMutToGoCbMut res.mutationToken) res.cas),
        err := none, warnLogs := [], finishCount := 0 }

/-- kvBulkProviderPs.Replace: as Upsert, with the optional CAS. -/
def bulkReplacePs (transcoder : Transcoder) (item : ReplaceOp) : CompletedOp :=
  match transcoder item.value with
  | Except.error e =>
    { op := BulkOp.replace item, result := none,
      err := some (BulkError.codecError e), warnLogs := [], finishCount := 0 }
  | Except.ok _encoded =>
    match item.clientResult with
    | Except.error e =>
      { op := BulkOp.replace item, result := none,
        err := some (mapPsErrorToGocbError e false), warnLogs := [], finishCount := 0 }
    | Except.ok res =>
      { op := BulkOp.replace item,
        result := some (BulkResult.mutationResult (psMutToGoCbMut res.mutationToken) res.cas),
        err := none, warnLogs := [], finishCount := 0 }

/-- kvBulkProviderPs.Append. -/
def bulkAppendPs (item : AppendOp) : CompletedOp :=
  match item.clientResult with
  | Except.error e =>
    { op := BulkOp.append item, result := none,
      err := some (mapPsErrorToGocbError e false), warnLogs := [], finishCount := 0 }
  | Except.ok res =>
    { op := BulkOp.append item,
      result := some (BulkResult.mutationResult (psMutToGoCbMut res.mutationToken) res.cas),
      err := none, warnLogs := [], finishCount := 0 }

/-- kvBulkProviderPs.Prepend. -/
def bulkPrependPs (item : PrependOp) : CompletedOp :=
  match item.clientResult with
  | Except.error e =>
    { op := BulkOp.prepend item, result := none,
      err := some (mapPsErrorToGocbError e false), warnLogs := [], finishCount := 0 }
  | Except.ok res =>
    { op := BulkOp.prepend item,
      result := some (BulkResult.mutationResult (psMutToGoCbMut res.mutationToken) res.cas),
      err := none, warnLogs := [], finishCount := 0 }

/-- kvBulkProviderPs.Increment: the counter value stored is uint64(res.Content). -/
def bulkIncrementPs (item : IncrementOp) : CompletedOp :=
  match item.clientResult with
  | Except.error e =>
    { op := BulkOp.increment item, result := none,
      err := some (mapPsErrorToGocbError e false), warnLogs := [], finishCount := 0 }
  | Except.ok res =>
    { op := BulkOp.increment item,
      result := some (BulkResult.counterResult (psMutToGoCbMut res.mutationToken)
        res.cas (uint64OfInt res.content)),
      err := none, warnLogs := [], finishCount := 0 }

/-- kvBulkProviderPs.Decrement. -/
def bulkDecrementPs (item : DecrementOp) : CompletedOp :=
  match item.clientResult with
  | Except.error e =>
    { op := BulkOp.decrement item, result := none,
      err := some (mapPsErrorToGocbError e false), warnLogs := [], finishCount := 0 }
  | Except.ok res =>
    { op := BulkOp.decrement item,
      result := some (BulkResult.counterResult (psMutToGoCbMut res.mutationToken)
        res.cas (uint64OfInt res.content)),
      err := none, warnLogs := [], finishCount := 0 }

/-- The worker's type switch: dispatch a BulkOp to its per-kind execution. -/
def workerProcess (transcoder : Transcoder) : BulkOp → CompletedOp
  | BulkOp.get item => bulkGetPs transcoder item
  | BulkOp.getAndTouch item => bulkGetAndTouchPs transcoder item
  | BulkOp.touch item => bulkTouchPs item
  | BulkOp.remove item => bulkRemovePs item
  | BulkOp.upsert item => bulkUpsertPs transcoder item
  | BulkOp.insert item => bulkInsertPs transcoder item
  | BulkOp.replace item => bulkReplacePs transcoder item
  | BulkOp.append item => bulkAppendPs item
  | BulkOp.prepend item => bulkPrependPs item
  | BulkOp.increment item => bulkIncrementPs item
  | BulkOp.decrement item => bulkDecrementPs item

/-- The BulkOpOptions consumed by Do: a per-batch timeout (0 = unset) and an
optional transcoder override. -/
structure BulkOpOptions where
  timeout : Int
  transcoder : Option Transcoder

/-- The collection configuration Do reads: the default per-operation KV timeout
and the collection's transcoder. -/
structure CollectionCfg where
  kvTimeout : Int
  transcoder : Transcoder

/-- The transcoder Do uses: the option's if non-nil, else the collection's. -/
def bulkTranscoder (c : CollectionCfg) (opts : BulkOpOptions) : Transcoder :=
  match opts.transcoder with
  | some t => t
  | none => c.transcoder

/-- The observable outcome of kvBulkProviderPs.Do: the overall timeout, the
capacity of the allocated signal channel, the drained completions (each with its
finish callback invoked), and the batch-level return value. -/
structure DoOutcome where
  timeout : Int
  signalCapacity : Nat
  completed : List CompletedOp
  batchError : Option BulkError

/-- kvBulkProviderPs.Do: choose the overall timeout (the explicit per-batch one
if non-zero, else KVTimeout * len(ops)), resolve the transcoder, allocate the
signal channel with capacity len(ops), have the workers process every op, drain
one completion per op invoking its finish callback, and return nil. -/
def kvBulkDo (c : CollectionCfg) (ops : List BulkOp) (opts : BulkOpOptions) : DoOutcome :=
  let timeout := if opts.timeout = 0 then c.kvTimeout * (ops.length : Int) else opts.timeout
  let transcoder := bulkTranscoder c opts
  let completions := ops.map (workerProcess transcoder)
  { timeout := timeout
    signalCapacity := ops.length
    completed := completions.map (fun item => { item with finishCount := item.finishCount + 1 })
    batchError := none }

/-! Concrete bulk instances used by witnesses. -/

/-- Witness transcoder: value 13 fails to encode with cause 9; any other value
encodes to one byte with flags 0. -/
def tcW : Transcoder := fun v => if v == 13 then Except.error 9 else Except.ok ([v], 0)

/-- Witness collection configuration. -/
def cfgW : CollectionCfg := { kvTimeout := 2, transcoder := tcW }

/-- Witness options with no explicit timeout and no transcoder override. -/
def optsW : BulkOpOptions := { timeout := 0, transcoder := none }

/-- Witness options with an explicit 5 ns batch timeout. -/
def optsT5 : BulkOpOptions := { timeout := 5, transcoder := none }

/-- A successful mutation response. -/
def mutRespW : MutationResponsePb := { cas := 11, mutationToken := none }

/-- A successful uncompressed get response. -/
def getRespW : GetResponsePb :=
  { cas := 21, content := PsContent.contentUncompressed [1, 2], contentFlags := 4 }

/-- The spec scenario: three Upserts and two Gets, the third Upsert's value
failing to encode under tcW. -/
def scenarioOps : List BulkOp :=
  [BulkOp.upsert { id := "a", value := 1, expiry := 0, clientResult := Except.ok mutRespW },
   BulkOp.upsert { id := "b", value := 2, expiry := 0, clientResult := Except.ok mutRespW },
   BulkOp.upsert { id := "c", value := 13, expiry := 0, clientResult := Except.ok mutRespW },
   BulkOp.get { id := "d", clientResult := Except.ok getRespW },
   BulkOp.get { id := "e", clientResult := Except.ok getRespW }]

/-- A get response carrying the compressed content variant. -/
def gzResp : GetResponsePb :=
  { cas := 31, content := PsContent.contentCompressed [9, 8], contentFlags := 6 }

/-- A Get whose response is compressed. -/
def gzGet : GetOp := { id := "z", clientResult := Except.ok gzResp }

/-- A GetAndTouch whose response is compressed. -/
def gzGat : GetAndTouchOp := { id := "z2", expiry := 1, clientResult := Except.ok gzResp }

/-- A wire error used by failing witnesses. -/
def psErrW : PsError := { code := 42 }

/-- Failing witness operations, one per kind. -/
def failGet : GetOp := { id := "f", clientResult := Except.error psErrW }

def failGat : GetAndTouchOp := { id := "f", expiry := 0, clientResult := Except.error psErrW }

def failTouch : TouchOp := { id := "f", expiry := 0, clientResult := Except.error psErrW }

def failRemove : RemoveOp := { id := "f", cas := 0, clientResult := Except.error psErrW }

def failUpsert : UpsertOp :=
  { id := "f", value := 1, expiry := 0, clientResult := Except.error psErrW }

def failInsert : InsertOp :=
  { id := "f", value := 1, expiry := 0, clientResult := Except.error psErrW }

def failReplace : ReplaceOp :=
  { id := "f", value := 1, cas := 0, expiry := 0, clientResult := Except.error psErrW }

def failAppend : AppendOp := { id := "f", value := [], clientResult := Except.error psErrW }

def failPrepend : PrependOp := { id := "f", value := [], clientResult := Except.error psErrW }

def failIncrement : IncrementOp :=
  { id := "f", delta := 1, initial := 0, expiry := 0, clientResult := Except.error psErrW }

def failDecrement : DecrementOp :=
  { id := "f", delta := 1, initial := 0, expiry := 0, clientResult := Except.error psErrW }

/-! Helper lemmas about recordRetryAttempt and retryOrchMaybeRetry. -/

theorem recordRetryAttempt_attempts (w : RetriableRequestPs) (reason : RetryReason) :
    (w.recordRetryAttempt reason).attempts = (w.attempts + 1) % 2 ^ 32 := by
  unfold RetriableRequestPs.recordRetryAttempt
  by_cases h : reason ∈ w.reasons <;> simp [h]

theorem recordRetryAttempt_mem (w : RetriableRequestPs) (reason x : RetryReason) :
    x ∈ (w.recordRetryAttempt reason).reasons ↔ x ∈ w.reasons ∨ x = reason := by
  unfold RetriableRequestPs.recordRetryAttempt
  by_cases h : reason ∈ w.reasons
  · simp only [h, if_pos]
    constructor
    · intro hx; exact Or.inl hx
    · intro hx
      cases hx with
      | inl hx => exact hx
      | inr hx => exact hx ▸ h
  · simp [h, List.mem_append]

theorem recordRetryAttempt_nodup (w : RetriableRequestPs) (reason : RetryReason)
    (h : w.reasons.Nodup) : (w.recordRetryAttempt reason).reasons.Nodup := by
  unfold RetriableRequestPs.recordRetryAttempt
  by_cases hm : reason ∈ w.reasons
  · simpa [hm] using h
  · simp only [hm, if_neg, not_false_iff]
    rw [List.nodup_append]
    refine ⟨h, List.nodup_singleton reason, ?_⟩
    intro a ha hb
    rw [List.mem_singleton] at hb
    exact hm (hb ▸ ha)

theorem recordRetryAttempt_frame (w : RetriableRequestPs) (reason : RetryReason) :
    (w.recordRetryAttempt reason).operation = w.operation ∧
    (w.recordRetryAttempt reason).identifier = w.identifier ∧
    (w.recordRetryAttempt reason).idempotent = w.idempotent := by
  unfold RetriableRequestPs.recordRetryAttempt
  by_cases h : reason ∈ w.reasons <;> simp [h]

theorem maybeRetry_always_eq (cb : Nat → Int) (req : RetriableRequestPs)
    (reason : RetryReason) (now : Int) (h : reason.alwaysRetry = true) :
    retryOrchMaybeRetry cb req reason now =
      (true, now + cb req.attempts, req.recordRetryAttempt reason) := by
  unfold retryOrchMaybeRetry
  simp [h]

theorem maybeRetry_record_of_true (cb : Nat → Int) (req : RetriableRequestPs)
    (reason : RetryReason) (now : Int)
    (h : (retryOrchMaybeRetry cb req reason now).1 = true) :
    (retryOrchMaybeRetry cb req reason now).2.2 = req.recordRetryAttempt reason := by
  cases hA : reason.alwaysRetry with
  | true => simp [retryOrchMaybeRetry, hA]
  | false =>
    cases hs : req.strategy with
    | none => simp [retryOrchMaybeRetry, hA, hs] at h
    | some s =>
      cases hact : s req.view reason with
      | none => simp [retryOrchMaybeRetry, hA, hs, hact] at h
      | some a =>
        by_cases hd : a.duration = 0
        · simp [retryOrchMaybeRetry, hA, hs, hact, hd] at h
        · simp [retryOrchMaybeRetry, hA, hs, hact, hd]

theorem maybeRetry_false_frame (cb : Nat → Int) (req : RetriableRequestPs)
    (reason : RetryReason) (now : Int)
    (h : (retryOrchMaybeRetry cb req reason now).1 = false) :
    (retryOrchMaybeRetry cb req reason now).2.2 = req ∧
    (retryOrchMaybeRetry cb req reason now).2.1 = 0 := by
  cases hA : reason.alwaysRetry with
  | true => simp [retryOrchMaybeRetry, hA] at h
  | false =>
    cases hs : req.strategy with
    | none => simp [retryOrchMaybeRetry, hA, hs]
    | some s =>
      cases hact : s req.view reason with
      | none => simp [retryOrchMaybeRetry, hA, hs, hact]
      | some a =>
        by_cases hd : a.duration = 0
        · simp [retryOrchMaybeRetry, hA, hs, hact, hd]
        · simp [retryOrchMaybeRetry, hA, hs, hact, hd] at h

/-! Claim theorems C1, C2, C3, C10. -/

/-- Claim C1: for every request and every reason whose `AlwaysRetry()` is true,
`retryOrchMaybeRetry` returns retry=true regardless of the configured strategy
(including a nil strategy), the idempotency flag, and the prior attempt count;
the wake time is now plus the controlled-backoff function of the current attempt
count, and the attempt is recorded. -/
theorem retry_always_retries (cb : Nat → Int) (req : RetriableRequestPs)
    (reason : RetryReason) (now : Int) (h : reason.alwaysRetry = true) :
    retryOrchMaybeRetry cb req reason now =
      (true, now + cb req.attempts, req.recordRetryAttempt reason) ∧
    (req.recordRetryAttempt reason).attempts = (req.attempts + 1) % 2 ^ 32 ∧
    reason ∈ (req.recordRetryAttempt reason).reasons := by
  refine ⟨maybeRetry_always_eq cb req reason now h, recordRetryAttempt_attempts req reason, ?_⟩
  rw [recordRetryAttempt_mem]
  exact Or.inr rfl

/-- Witness for C1: a concrete always-retry reason on a request with no strategy,
zero prior attempts, at instant 5. -/
theorem retry_always_retries_witness :
    retryOrchMaybeRetry cbOne freshReq alwaysReason 5 =
      (true, 5 + cbOne freshReq.attempts, freshReq.recordRetryAttempt alwaysReason) ∧
    (freshReq.recordRetryAttempt alwaysReason).attempts = (freshReq.attempts + 1) % 2 ^ 32 ∧
    alwaysReason ∈ (freshReq.recordRetryAttempt alwaysReason).reasons :=
  retry_always_retries cbOne freshReq alwaysReason 5 rfl

/-- Counterexample to claim C2 as stated: a strategy whose action carries a
negative (hence non-positive) duration still makes `retryOrchMaybeRetry` return
retry=true, because the code only rejects a duration equal to zero. -/
theorem retry_positive_duration_cex :
    plainReason.alwaysRetry = false ∧
    negReq.strategy = some negStrategy ∧
    negStrategy negReq.view plainReason = some (RetryAction.withDuration (-1)) ∧
    (RetryAction.withDuration (-1)).duration ≤ 0 ∧
    (retryOrchMaybeRetry cbOne negReq plainReason 0).1 = true := by
  refine ⟨rfl, rfl, rfl, by decide, ?_⟩
  rfl

/-- Claim C2 (amended): for a reason with `AlwaysRetry() = false`,
`retryOrchMaybeRetry` returns retry=true iff the request has a non-nil strategy
whose RetryAfter returns a non-nil action with a non-zero duration; a nil
strategy, a nil action, a do-not-retry action, or a zero duration all yield
retry=false. -/
theorem retry_strategy_decision_iff (cb : Nat → Int) (req : RetriableRequestPs)
    (reason : RetryReason) (now : Int) (h : reason.alwaysRetry = false) :
    (retryOrchMaybeRetry cb req reason now).1 = true ↔
      ∃ s a, req.strategy = some s ∧ s req.view reason = some a ∧
        a.duration ≠ 0 := by
  cases hs : req.strategy with
  | none => simp [retryOrchMaybeRetry, h, hs]
  | some s =>
    cases hact : s req.view reason with
    | none => simp [retryOrchMaybeRetry, h, hs, hact]
    | some a =>
      by_cases hd : a.duration = 0
      · simp [retryOrchMaybeRetry, h, hs, hact, hd]
      · simp [retryOrchMaybeRetry, h, hs, hact, hd]

/-- Witness for C2 (amended): the negative-duration strategy at instant 0 retries,
and the iff certifies a non-nil strategy/action with non-zero duration. -/
theorem retry_strategy_decision_iff_witness :
    plainReason.alwaysRetry = false ∧
    ((retryOrchMaybeRetry cbOne negReq plainReason 0).1 = true ↔
      ∃ s a, negReq.strategy = some s ∧ s negReq.view plainReason = some a ∧
        a.duration ≠ 0) :=
  ⟨rfl, retry_strategy_decision_iff cbOne negReq plainReason 0 rfl⟩

/-- Claim C3: `BestEffortRetryStrategy.RetryAfter` returns the retry action with
the backoff-calculator duration exactly when the request is idempotent or the
reason allows non-idempotent retry; for a non-idempotent request and a reason
with `AllowsNonIdempotentRetry() = false` it returns the no-retry action, whose
duration is zero, so never a positive duration. -/
theorem bestEffort_retryAfter_characterization (rs : BestEffortRetryStrategy)
    (req : RetryRequest) (reason : RetryReason) :
    (rs.RetryAfter req reason =
        RetryAction.withDuration (rs.BackoffCalculator req.retryAttempts) ↔
      (req.idempotent || reason.allowsNonIdempotentRetry) = true) ∧
    ((req.idempotent || reason.allowsNonIdempotentRetry) = false →
      rs.RetryAfter req reason = RetryAction.noRetry ∧
      (rs.RetryAfter req reason).duration = 0 ∧
      ¬ 0 < (rs.RetryAfter req reason).duration) := by
  unfold BestEffortRetryStrategy.RetryAfter
  by_cases h : (req.idempotent || reason.allowsNonIdempotentRetry) = true
  · simp [h]
  · rw [Bool.not_eq_true] at h
    simp [h, RetryAction.duration]

/-- Witness for C3: a non-idempotent request and a reason disallowing
non-idempotent retry yield the no-retry action with duration zero. -/
theorem bestEffort_retryAfter_characterization_witness :
    ((freshReq.view.idempotent ||
        (RetryReason.mk false false "locked").allowsNonIdempotentRetry) = false →
      (BestEffortRetryStrategy.mk cbOne).RetryAfter freshReq.view
          (RetryReason.mk false false "locked") = RetryAction.noRetry ∧
      ((BestEffortRetryStrategy.mk cbOne).RetryAfter freshReq.view
          (RetryReason.mk false false "locked")).duration = 0 ∧
      ¬ 0 < ((BestEffortRetryStrategy.mk cbOne).RetryAfter freshReq.view
          (RetryReason.mk false false "locked")).duration) ∧
    (freshReq.view.idempotent ||
        (RetryReason.mk false false "locked").allowsNonIdempotentRetry) = false :=
  ⟨(bestEffort_retryAfter_characterization (BestEffortRetryStrategy.mk cbOne)
      freshReq.view (RetryReason.mk false false "locked")).2, rfl⟩

/-- Claim C10: whenever `retryOrchMaybeRetry` returns retry=false, the request
state (attempt counter and reason set included) is returned unchanged and the
wake time is the zero time value. -/
theorem maybeRetry_no_retry_frame (cb : Nat → Int) (req : RetriableRequestPs)
    (reason : RetryReason) (now : Int)
    (h : (retryOrchMaybeRetry cb req reason now).1 = false) :
    (retryOrchMaybeRetry cb req reason now).2.2 = req ∧
    (retryOrchMaybeRetry cb req reason now).2.1 = 0 :=
  maybeRetry_false_frame cb req reason now h

/-- Witness for C10: a request without a strategy and a non-always reason does
not retry, leaving the state untouched with the zero wake time. -/
theorem maybeRetry_no_retry_frame_witness :
    (retryOrchMaybeRetry cbOne freshReq plainReason 7).1 = false ∧
    (retryOrchMaybeRetry cbOne freshReq plainReason 7).2.2 = freshReq ∧
    (retryOrchMaybeRetry cbOne freshReq plainReason 7).2.1 = 0 :=
  ⟨rfl, maybeRetry_no_retry_frame cbOne freshReq plainReason 7 rfl⟩

/-! Claim C4: runs of consecutive retried decisions. -/

theorem runRetries_spec (cb : Nat → Int) (steps : List (RetryReason × Int)) :
    ∀ (req : RetriableRequestPs),
      req.attempts < 2 ^ 32 → req.reasons.Nodup →
      (runRetries cb req steps).2 = true →
      (runRetries cb req steps).1.attempts = (req.attempts + steps.length) % 2 ^ 32 ∧
      (runRetries cb req steps).1.reasons.Nodup ∧
      ∀ r, r ∈ (runRetries cb req steps).1.reasons ↔
        r ∈ req.reasons ∨ r ∈ steps.map Prod.fst := by
  induction steps with
  | nil =>
    intro req hlt hnd _
    refine ⟨?_, hnd, ?_⟩
    · simp only [runRetries, List.length_nil, Nat.add_zero]
      exact (Nat.mod_eq_of_lt hlt).symm
    · intro r; simp [runRetries]
  | cons p rest ih =>
    intro req hlt hnd hall
    obtain ⟨reason, now⟩ := p
    have hload : runRetries cb req ((reason, now) :: rest) =
        if (retryOrchMaybeRetry cb req reason now).1 then
          runRetries cb (retryOrchMaybeRetry cb req reason now).2.2 rest
        else ((retryOrchMaybeRetry cb req reason now).2.2, false) := rfl
    by_cases h1 : (retryOrchMaybeRetry cb req reason now).1 = true
    · have hrec := maybeRetry_record_of_true cb req reason now h1
      rw [hload, if_pos h1, hrec] at hall ⊢
      have hlt2 : (req.recordRetryAttempt reason).attempts < 2 ^ 32 := by
        rw [recordRetryAttempt_attempts]
        exact Nat.mod_lt _ (by norm_num)
      have hnd2 := recordRetryAttempt_nodup req reason hnd
      obtain ⟨ha, hb, hc⟩ := ih (req.recordRetryAttempt reason) hlt2 hnd2 hall
      refine ⟨?_, hb, ?_⟩
      · rw [ha, recordRetryAttempt_attempts, Nat.mod_add_mod]
        have : req.attempts + 1 + rest.length =
            req.attempts + ((reason, now) :: rest).length := by
          simp [List.length_cons]; omega
        rw [this]
      · intro r
        rw [hc r, recordRetryAttempt_mem]
        simp [List.map_cons]
        tauto
    · rw [hload, if_neg h1] at hall
      simp at hall

/-- Claim C4 (amended): starting from a fresh request, after K consecutive retry
decisions that all result in retry, the uint32 attempt counter equals K modulo
2 ^ 32 (hence equals K whenever K < 2 ^ 32), and the reason set contains exactly
the distinct reasons among the K recorded reasons, with no duplicates. -/
theorem attempts_and_reasons_after_retries (cb : Nat → Int)
    (steps : List (RetryReason × Int)) (req : RetriableRequestPs)
    (h0 : req.attempts = 0) (h1 : req.reasons = [])
    (hall : (runRetries cb req steps).2 = true) :
    (runRetries cb req steps).1.attempts = steps.length % 2 ^ 32 ∧
    (runRetries cb req steps).1.reasons.Nodup ∧
    ∀ r, r ∈ (runRetries cb req steps).1.reasons ↔ r ∈ steps.map Prod.fst := by
  have hspec := runRetries_spec cb steps req
    (by rw [h0]; norm_num) (by rw [h1]; exact List.nodup_nil) hall
  obtain ⟨ha, hb, hc⟩ := hspec
  refine ⟨by rw [ha, h0, Nat.zero_add], hb, ?_⟩
  intro r
  rw [hc r, h1]
  simp

/-- Witness for C4 (amended): three consecutive always-retry decisions carrying
two distinct reasons starting from a fresh request. -/
theorem attempts_and_reasons_after_retries_witness :
    freshReq.attempts = 0 ∧ freshReq.reasons = [] ∧
    (runRetries cbOne freshReq
      [(alwaysReason, 0), (alwaysReason2, 1), (alwaysReason, 2)]).2 = true ∧
    ((runRetries cbOne freshReq
        [(alwaysReason, 0), (alwaysReason2, 1), (alwaysReason, 2)]).1.attempts =
      ([(alwaysReason, 0), (alwaysReason2, 1), (alwaysReason, 2)].length) % 2 ^ 32 ∧
    (runRetries cbOne freshReq
      [(alwaysReason, 0), (alwaysReason2, 1), (alwaysReason, 2)]).1.reasons.Nodup ∧
    ∀ r, r ∈ (runRetries cbOne freshReq
        [(alwaysReason, 0), (alwaysReason2, 1), (alwaysReason, 2)]).1.reasons ↔
      r ∈ [(alwaysReason, 0), (alwaysReason2, 1), (alwaysReason, 2)].map Prod.fst) :=
  ⟨rfl, rfl, by decide,
    attempts_and_reasons_after_retries cbOne
      [(alwaysReason, 0), (alwaysReason2, 1), (alwaysReason, 2)] freshReq
      rfl rfl (by decide)⟩

theorem runRetries_always_all_true (cb : Nat → Int) (reason : RetryReason)
    (hA : reason.alwaysRetry = true) (t : Int) :
    ∀ (n : Nat) (req : RetriableRequestPs),
      (runRetries cb req (List.replicate n (reason, t))).2 = true := by
  intro n
  induction n with
  | zero => intro req; rfl
  | succ k ih =>
    intro req
    rw [List.replicate_succ]
    have hstep : runRetries cb req ((reason, t) :: List.replicate k (reason, t)) =
        runRetries cb (req.recordRetryAttempt reason) (List.replicate k (reason, t)) := by
      simp [runRetries, maybeRetry_always_eq cb req reason t hA]
    rw [hstep]
    exact ih _

/-- Counterexample to claim C4 as stated: after K = 2 ^ 32 consecutive retry
decisions that all result in retry, the uint32 attempt counter has wrapped to 0
and does not equal K. -/
theorem attempts_counter_wrap_cex :
    (runRetries cbOne freshReq (List.replicate (2 ^ 32) (alwaysReason, 0))).2 = true ∧
    (runRetries cbOne freshReq
      (List.replicate (2 ^ 32) (alwaysReason, 0))).1.attempts ≠ 2 ^ 32 := by
  have hall := runRetries_always_all_true cbOne alwaysReason rfl 0 (2 ^ 32) freshReq
  refine ⟨hall, ?_⟩
  have hspec := runRetries_spec cbOne (List.replicate (2 ^ 32) (alwaysReason, 0)) freshReq
    (Nat.pos_pow_of_pos 32 (by norm_num)) List.nodup_nil hall
  have h0 : freshReq.attempts = 0 := rfl
  rw [hspec.1, List.length_replicate, h0]
  norm_num

/-! Claim C5: the failing terminations of handleRetriableRequest. -/

theorem handle_timedOut_inv {V E G : Type} (cb : Nat → Int) (mapErr : E → Bool → G)
    (isTimeoutErr : G → Bool) (retryReasonFn : G → Option RetryReason)
    (createdTime : Int) :
    ∀ (steps : List (StepInput V E)) (req : RetriableRequestPs) (e : TimeoutError E),
      handleRetriableRequest cb mapErr isTimeoutErr retryReasonFn createdTime req steps =
        some (HandleOutcome.timedOut e) →
      e.operationID = req.operation ∧ e.correlationId = req.identifier ∧
      ((∃ err, e.innerError = InnerCause.fromSend err) ∨
        e.innerError = InnerCause.unambiguousTimeout) := by
  intro steps
  induction steps with
  | nil =>
    intro req e h
    simp [handleRetriableRequest] at h
  | cons step rest ih =>
    intro req e h
    cases hsr : step.sendResult with
    | ok res =>
      simp [handleRetriableRequest, hsr] at h
    | error err =>
      simp only [handleRetriableRequest, hsr] at h
      by_cases hT : isTimeoutErr (mapErr err req.idempotent) = true
      · rw [if_pos hT] at h
        simp only [Option.some.injEq, HandleOutcome.timedOut.injEq] at h
        subst h
        exact ⟨rfl, rfl, Or.inl ⟨err, rfl⟩⟩
      · rw [if_neg hT] at h
        cases hrr : retryReasonFn (mapErr err req.idempotent) with
        | none =>
          rw [hrr] at h
          simp at h
        | some reason =>
          rw [hrr] at h
          by_cases hb : (retryOrchMaybeRetry cb req reason step.now).1 = true
          · have hrec := maybeRetry_record_of_true cb req reason step.now hb
            have hframe := recordRetryAttempt_frame req reason
            cases hw : step.waitOutcome with
            | timerFired =>
              simp only [hb, if_true, hw] at h
              obtain ⟨h1, h2, h3⟩ := ih _ e h
              rw [hrec] at h1 h2
              exact ⟨h1.trans hframe.1, h2.trans hframe.2.1, h3⟩
            | ctxDeadlineExceeded =>
              simp only [hb, if_true, hw, Option.some.injEq,
                HandleOutcome.timedOut.injEq] at h
              subst h
              rw [hrec]
              exact ⟨hframe.1, hframe.2.1, Or.inr rfl⟩
            | ctxCanceledOther =>
              simp only [hb, if_true, hw] at h
              simp at h
          · rw [Bool.not_eq_true] at hb
            simp only [hb, Bool.false_eq_true, if_false] at h
            simp at h

/-- Claim C5: handleRetriableRequest's failing terminations have exactly the
claimed shapes: (a) a timeout-classified dispatch error returns a TimeoutError
carrying the raw inner cause, the operation name, the correlation identifier,
the elapsed time since creation, the reason set and the attempt count; (b) a
granted retry whose backoff wait is cut short by a deadline-exceeded context
returns a TimeoutError of the same shape whose inner cause is the generic
ran-out-of-time marker, after the attempt was recorded; (c) a wait cut short by
any other cancellation returns the generic request-cancelled outcome; and (d)
every TimeoutError termination of any trace carries the request's operation
name and correlation identifier and has an inner cause of one of the two shapes
above. -/
theorem handleRetriable_failing_shapes {V E G : Type} (cb : Nat → Int)
    (mapErr : E → Bool → G) (isTimeoutErr : G → Bool)
    (retryReasonFn : G → Option RetryReason) (createdTime : Int) :
    (∀ (req : RetriableRequestPs) (step : StepInput V E)
        (rest : List (StepInput V E)) (err : E),
      step.sendResult = Except.error err →
      isTimeoutErr (mapErr err req.idempotent) = true →
      handleRetriableRequest cb mapErr isTimeoutErr retryReasonFn createdTime req
          (step :: rest) =
        some (HandleOutcome.timedOut
          { innerError := InnerCause.fromSend err
            operationID := req.operation
            correlationId := req.identifier
            timeObserved := step.now - createdTime
            retryReasons := req.reasons
            retryAttempts := req.attempts })) ∧
    (∀ (req : RetriableRequestPs) (step : StepInput V E)
        (rest : List (StepInput V E)) (err : E) (reason : RetryReason),
      step.sendResult = Except.error err →
      isTimeoutErr (mapErr err req.idempotent) = false →
      retryReasonFn (mapErr err req.idempotent) = some reason →
      (retryOrchMaybeRetry cb req reason step.now).1 = true →
      step.waitOutcome = WaitOutcome.ctxDeadlineExceeded →
      handleRetriableRequest cb mapErr isTimeoutErr retryReasonFn createdTime req
          (step :: rest) =
        some (HandleOutcome.timedOut
          { innerError := InnerCause.unambiguousTimeout
            operationID := req.operation
            correlationId := req.identifier
            timeObserved := step.now - createdTime
            retryReasons := (req.recordRetryAttempt reason).reasons
            retryAttempts := (req.recordRetryAttempt reason).attempts })) ∧
    (∀ (req : RetriableRequestPs) (step : StepInput V E)
        (rest : List (StepInput V E)) (err : E) (reason : RetryReason),
      step.sendResult = Except.error err →
      isTimeoutErr (mapErr err req.idempotent) = false →
      retryReasonFn (mapErr err req.idempotent) = some reason →
      (retryOrchMaybeRetry cb req reason step.now).1 = true →
      step.waitOutcome = WaitOutcome.ctxCanceledOther →
      handleRetriableRequest cb mapErr isTimeoutErr retryReasonFn createdTime req
          (step :: rest) =
        some HandleOutcome.cancelled) ∧
    (∀ (steps : List (StepInput V E)) (req : RetriableRequestPs) (e : TimeoutError E),
      handleRetriableRequest cb mapErr isTimeoutErr retryReasonFn createdTime req steps =
        some (HandleOutcome.timedOut e) →
      e.operationID = req.operation ∧ e.correlationId = req.identifier ∧
      ((∃ err, e.innerError = InnerCause.fromSend err) ∨
        e.innerError = InnerCause.unambiguousTimeout)) := by
  refine ⟨?_, ?_, ?_, handle_timedOut_inv cb mapErr isTimeoutErr retryReasonFn createdTime⟩
  · intro req step rest err h1 h2
    simp [handleRetriableRequest, h1, h2]
  · intro req step rest err reason h1 h2 h3 h4 h5
    have hrec := maybeRetry_record_of_true cb req reason step.now h4
    have hframe := recordRetryAttempt_frame req reason
    simp only [handleRetriableRequest, h1, h2, Bool.false_eq_true, if_false, h3,
      h4, if_true, h5, hrec, hframe.1, hframe.2.1]
  · intro req step rest err reason h1 h2 h3 h4 h5
    simp only [handleRetriableRequest, h1, h2, Bool.false_eq_true, if_false, h3,
      h4, if_true, h5]

/-- Witness for C5: concrete traces over codes (7 timeout-classified, 3
retryable) exercising the dispatch-timeout, deadline-cut-wait and
other-cancellation terminations, plus the shape inversion at the first trace. -/
theorem handleRetriable_failing_shapes_witness :
    (handleRetriableRequest cbOne mapErrW isTimeoutErrW retryReasonFnW 0 freshReq
        [stepTimeoutW] = some (HandleOutcome.timedOut eW)) ∧
    (handleRetriableRequest cbOne mapErrW isTimeoutErrW retryReasonFnW 0 posReq
        [stepDeadlineW] =
      some (HandleOutcome.timedOut
        { innerError := InnerCause.unambiguousTimeout
          operationID := posReq.operation
          correlationId := posReq.identifier
          timeObserved := stepDeadlineW.now - 0
          retryReasons := (posReq.recordRetryAttempt plainReason).reasons
          retryAttempts := (posReq.recordRetryAttempt plainReason).attempts })) ∧
    (handleRetriableRequest cbOne mapErrW isTimeoutErrW retryReasonFnW 0 posReq
        [stepCancelW] = some HandleOutcome.cancelled) ∧
    (eW.operationID = freshReq.operation ∧ eW.correlationId = freshReq.identifier ∧
      ((∃ err, eW.innerError = InnerCause.fromSend err) ∨
        eW.innerError = InnerCause.unambiguousTimeout)) :=
  ⟨(@handleRetriable_failing_shapes Nat Nat Nat cbOne mapErrW isTimeoutErrW
      retryReasonFnW 0).1 freshReq stepTimeoutW [] 7 rfl rfl,
   (@handleRetriable_failing_shapes Nat Nat Nat cbOne mapErrW isTimeoutErrW
      retryReasonFnW 0).2.1 posReq stepDeadlineW [] 3 plainReason rfl rfl rfl rfl rfl,
   (@handleRetriable_failing_shapes Nat Nat Nat cbOne mapErrW isTimeoutErrW
      retryReasonFnW 0).2.2.1 posReq stepCancelW [] 3 plainReason rfl rfl rfl rfl rfl,
   (@handleRetriable_failing_shapes Nat Nat Nat cbOne mapErrW isTimeoutErrW
      retryReasonFnW 0).2.2.2 [stepTimeoutW] freshReq eW rfl⟩

/-! Claims C6-C9: the bulk dispatch engine. -/

theorem workerProcess_finishCount (t : Transcoder) (op : BulkOp) :
    (workerProcess t op).finishCount = 0 := by
  cases op with
  | get item => cases h : item.clientResult <;> simp [workerProcess, bulkGetPs, h]
  | getAndTouch item =>
    cases h : item.clientResult <;> simp [workerProcess, bulkGetAndTouchPs, h]
  | touch item => cases h : item.clientResult <;> simp [workerProcess, bulkTouchPs, h]
  | remove item => cases h : item.clientResult <;> simp [workerProcess, bulkRemovePs, h]
  | upsert item =>
    cases he : t item.value with
    | error e => simp [workerProcess, bulkUpsertPs, he]
    | ok enc => cases h : item.clientResult <;> simp [workerProcess, bulkUpsertPs, he, h]
  | insert item =>
    cases he : t item.value with
    | error e => simp [workerProcess, bulkInsertPs, he]
    | ok enc => cases h : item.clientResult <;> simp [workerProcess, bulkInsertPs, he, h]
  | replace item =>
    cases he : t item.value with
    | error e => simp [workerProcess, bulkReplacePs, he]
    | ok enc => cases h : item.clientResult <;> simp [workerProcess, bulkReplacePs, he, h]
  | append item => cases h : item.clientResult <;> simp [workerProcess, bulkAppendPs, h]
  | prepend item => cases h : item.clientResult <;> simp [workerProcess, bulkPrependPs, h]
  | increment item =>
    cases h : item.clientResult <;> simp [workerProcess, bulkIncrementPs, h]
  | decrement item =>
    cases h : item.clientResult <;> simp [workerProcess, bulkDecrementPs, h]

theorem finishOnce_map (t : Transcoder) (ops : List BulkOp) :
    (ops.map (workerProcess t)).map
        (fun item => { item with finishCount := item.finishCount + 1 }) =
      ops.map (fun op => { workerProcess t op with finishCount := 1 }) := by
  induction ops with
  | nil => rfl
  | cons op rest ih =>
    simp only [List.map_cons, ih, List.cons.injEq, and_true]
    rw [workerProcess_finishCount t op]

/-- Claim C6: for a batch of N operations, Do allocates the completion channel
with capacity exactly N, returns a nil batch-level error unconditionally (so
per-item failures, such as a codec failure on one Upsert, never escalate), and
drains exactly N completions, each item processed independently by its own
per-kind execution with its finish callback invoked exactly once. -/
theorem bulkDo_completions_shape (c : CollectionCfg) (ops : List BulkOp)
    (opts : BulkOpOptions) :
    (kvBulkDo c ops opts).signalCapacity = ops.length ∧
    (kvBulkDo c ops opts).batchError = none ∧
    (kvBulkDo c ops opts).completed.length = ops.length ∧
    (kvBulkDo c ops opts).completed =
      ops.map (fun op =>
        { workerProcess (bulkTranscoder c opts) op with finishCount := 1 }) := by
  have hc : (kvBulkDo c ops opts).completed =
      (ops.map (workerProcess (bulkTranscoder c opts))).map
        (fun item => { item with finishCount := item.finishCount + 1 }) := rfl
  refine ⟨rfl, rfl, ?_, ?_⟩
  · rw [hc]; simp
  · rw [hc]; exact finishOnce_map (bulkTranscoder c opts) ops

/-- Witness for C6: the spec scenario of three Upserts and two Gets where the
third Upsert's codec fails — its error slot is set, the other four items
complete normally, and the batch-level error is still nil. -/
theorem bulkDo_completions_shape_witness :
    (kvBulkDo cfgW scenarioOps optsW).batchError = none ∧
    (kvBulkDo cfgW scenarioOps optsW).signalCapacity = 5 ∧
    (kvBulkDo cfgW scenarioOps optsW).completed =
      scenarioOps.map (fun op =>
        { workerProcess (bulkTranscoder cfgW optsW) op with finishCount := 1 }) ∧
    (kvBulkDo cfgW scenarioOps optsW).completed.map CompletedOp.err =
      [none, none, some (BulkError.codecError 9), none, none] ∧
    (kvBulkDo cfgW scenarioOps optsW).completed.map CompletedOp.finishCount =
      [1, 1, 1, 1, 1] :=
  ⟨(bulkDo_completions_shape cfgW scenarioOps optsW).2.1,
   (bulkDo_completions_shape cfgW scenarioOps optsW).1,
   (bulkDo_completions_shape cfgW scenarioOps optsW).2.2.2,
   rfl, rfl⟩

/-- Claim C7: the overall deadline is the explicit per-batch timeout when
non-zero, else the collection's per-operation KV timeout multiplied by the batch
size. -/
theorem bulkDo_timeout_choice (c : CollectionCfg) (ops : List BulkOp)
    (opts : BulkOpOptions) :
    (opts.timeout ≠ 0 → (kvBulkDo c ops opts).timeout = opts.timeout) ∧
    (opts.timeout = 0 →
      (kvBulkDo c ops opts).timeout = c.kvTimeout * (ops.length : Int)) := by
  constructor <;> intro h <;> simp [kvBulkDo, h]

/-- Witness for C7: an explicit 5 ns timeout is used as-is; with no explicit
timeout the batch of five ops gets 5 * kvTimeout. -/
theorem bulkDo_timeout_choice_witness :
    optsT5.timeout ≠ 0 ∧
    (kvBulkDo cfgW scenarioOps optsT5).timeout = optsT5.timeout ∧
    optsW.timeout = 0 ∧
    (kvBulkDo cfgW scenarioOps optsW).timeout =
      cfgW.kvTimeout * (scenarioOps.length : Int) :=
  ⟨by decide, (bulkDo_timeout_choice cfgW scenarioOps optsT5).1 (by decide),
   rfl, (bulkDo_timeout_choice cfgW scenarioOps optsW).2 rfl⟩

/-- Claim C8: a Get or GetAndTouch whose response carries the compressed content
variant yields a result holding the compressed bytes unchanged (no
decompression), logs the diagnostic warning, and takes CAS and content flags
from the response exactly as the uncompressed variant would. -/
theorem bulkGet_compressed_passthrough (t : Transcoder) (g : GetOp)
    (gat : GetAndTouchOp) (resG resT : GetResponsePb) (bG bT : List Nat)
    (hG : g.clientResult = Except.ok resG)
    (hcG : resG.content = PsContent.contentCompressed bG)
    (hT : gat.clientResult = Except.ok resT)
    (hcT : resT.content = PsContent.contentCompressed bT) :
    ((bulkGetPs t g).result =
        some (BulkResult.getResult resG.cas bG resG.contentFlags) ∧
      (bulkGetPs t g).err = none ∧
      (bulkGetPs t g).warnLogs = [compressedWarning] ∧
      (bulkGetPs t g).result =
        (bulkGetPs t { g with clientResult := Except.ok ({ resG with content := PsContent.contentUncompressed bG }) }).result) ∧
    ((bulkGetAndTouchPs t gat).result =
        some (BulkResult.getResult resT.cas bT resT.contentFlags) ∧
      (bulkGetAndTouchPs t gat).err = none ∧
      (bulkGetAndTouchPs t gat).warnLogs = [compressedWarning] ∧
      (bulkGetAndTouchPs t gat).result =
        (bulkGetAndTouchPs t { gat with clientResult := Except.ok ({ resT with content := PsContent.contentUncompressed bT }) }).result) := by
  refine ⟨⟨?_, ?_, ?_, ?_⟩, ⟨?_, ?_, ?_, ?_⟩⟩ <;>
    simp [bulkGetPs, bulkGetAndTouchPs, hG, hcG, hT, hcT]

/-- Witness for C8: a concrete compressed response on both a Get and a
GetAndTouch. -/
theorem bulkGet_compressed_passthrough_witness :
    ((bulkGetPs tcW gzGet).result =
        some (BulkResult.getResult gzResp.cas [9, 8] gzResp.contentFlags) ∧
      (bulkGetPs tcW gzGet).err = none ∧
      (bulkGetPs tcW gzGet).warnLogs = [compressedWarning] ∧
      (bulkGetPs tcW gzGet).result =
        (bulkGetPs tcW { gzGet with clientResult := Except.ok ({ gzResp with content := PsContent.contentUncompressed [9, 8] }) }).result) ∧
    ((bulkGetAndTouchPs tcW gzGat).result =
        some (BulkResult.getResult gzResp.cas [9, 8] gzResp.contentFlags) ∧
      (bulkGetAndTouchPs tcW gzGat).err = none ∧
      (bulkGetAndTouchPs tcW gzGat).warnLogs = [compressedWarning] ∧
      (bulkGetAndTouchPs tcW gzGat).result =
        (bulkGetAndTouchPs tcW { gzGat with clientResult := Except.ok ({ gzResp with content := PsContent.contentUncompressed [9, 8] }) }).result) :=
  bulkGet_compressed_passthrough tcW gzGet gzGat gzResp gzResp [9, 8] [9, 8]
    rfl rfl rfl rfl

/-- Claim C9: among the bulk kinds, only Get classifies a failed remote call
with the idempotent flag true; every other kind — including the read-like
GetAndTouch — classifies with idempotent false (for the value-carrying kinds
the remote call is only reached after a successful encode). -/
theorem bulk_idempotent_flag_only_get :
    (∀ (t : Transcoder) (item : GetOp) (e : PsError),
      item.clientResult = Except.error e →
      (bulkGetPs t item).err = some (mapPsErrorToGocbError e true)) ∧
    (∀ (t : Transcoder) (item : GetAndTouchOp) (e : PsError),
      item.clientResult = Except.error e →
      (bulkGetAndTouchPs t item).err = some (mapPsErrorToGocbError e false)) ∧
    (∀ (item : TouchOp) (e : PsError),
      item.clientResult = Except.error e →
      (bulkTouchPs item).err = some (mapPsErrorToGocbError e false)) ∧
    (∀ (item : RemoveOp) (e : PsError),
      item.clientResult = Except.error e →
      (bulkRemovePs item).err = some (mapPsErrorToGocbError e false)) ∧
    (∀ (t : Transcoder) (item : UpsertOp) (e : PsError) (enc : List Nat × Nat),
      t item.value = Except.ok enc → item.clientResult = Except.error e →
      (bulkUpsertPs t item).err = some (mapPsErrorToGocbError e false)) ∧
    (∀ (t : Transcoder) (item : InsertOp) (e : PsError) (enc : List Nat × Nat),
      t item.value = Except.ok enc → item.clientResult = Except.error e →
      (bulkInsertPs t item).err = some (mapPsErrorToGocbError e false)) ∧
    (∀ (t : Transcoder) (item : ReplaceOp) (e : PsError) (enc : List Nat × Nat),
      t item.value = Except.ok enc → item.clientResult = Except.error e →
      (bulkReplacePs t item).err = some (mapPsErrorToGocbError e false)) ∧
    (∀ (item : AppendOp) (e : PsError),
      item.clientResult = Except.error e →
      (bulkAppendPs item).err = some (mapPsErrorToGocbError e false)) ∧
    (∀ (item : PrependOp) (e : PsError),
      item.clientResult = Except.error e →
      (bulkPrependPs item).err = some (mapPsErrorToGocbError e false)) ∧
    (∀ (item : IncrementOp) (e : PsError),
      item.clientResult = Except.error e →
      (bulkIncrementPs item).err = some (mapPsErrorToGocbError e false)) ∧
    (∀ (item : DecrementOp) (e : PsError),
      item.clientResult = Except.error e →
      (bulkDecrementPs item).err = some (mapPsErrorToGocbError e false)) := by
  refine ⟨?_, ?_, ?_, ?_, ?_, ?_, ?_, ?_, ?_, ?_, ?_⟩
  · intro t item e h; simp [bulkGetPs, h]
  · intro t item e h; simp [bulkGetAndTouchPs, h]
  · intro item e h; simp [bulkTouchPs, h]
  · intro item e h; simp [bulkRemovePs, h]
  · intro t item e enc he h; simp [bulkUpsertPs, he, h]
  · intro t item e enc he h; simp [bulkInsertPs, he, h]
  · intro t item e enc he h; simp [bulkReplacePs, he, h]
  · intro item e h; simp [bulkAppendPs, h]
  · intro item e h; simp [bulkPrependPs, h]
  · intro item e h; simp [bulkIncrementPs, h]
  · intro item e h; simp [bulkDecrementPs, h]

/-- Witness for C9: one failing operation of each kind, showing the flag passed
to the classifier is true for Get and false for every other kind. -/
theorem bulk_idempotent_flag_only_get_witness :
    (bulkGetPs tcW failGet).err = some (mapPsErrorToGocbError psErrW true) ∧
    (bulkGetAndTouchPs tcW failGat).err = some (mapPsErrorToGocbError psErrW false) ∧
    (bulkTouchPs failTouch).err = some (mapPsErrorToGocbError psErrW false) ∧
    (bulkRemovePs failRemove).err = some (mapPsErrorToGocbError psErrW false) ∧
    (bulkUpsertPs tcW failUpsert).err = some (mapPsErrorToGocbError psErrW false) ∧
    (bulkInsertPs tcW failInsert).err = some (mapPsErrorToGocbError psErrW false) ∧
    (bulkReplacePs tcW failReplace).err = some (mapPsErrorToGocbError psErrW false) ∧
    (bulkAppendPs failAppend).err = some (mapPsErrorToGocbError psErrW false) ∧
    (bulkPrependPs failPrepend).err = some (mapPsErrorToGocbError psErrW false) ∧
    (bulkIncrementPs failIncrement).err = some (mapPsErrorToGocbError psErrW false) ∧
    (bulkDecrementPs failDecrement).err = some (mapPsErrorToGocbError psErrW false) :=
  ⟨bulk_idempotent_flag_only_get.1 tcW failGet psErrW rfl,
   bulk_idempotent_flag_only_get.2.1 tcW failGat psErrW rfl,
   bulk_idempotent_flag_only_get.2.2.1 failTouch psErrW rfl,
   bulk_idempotent_flag_only_get.2.2.2.1 failRemove psErrW rfl,
   bulk_idempotent_flag_only_get.2.2.2.2.1 tcW failUpsert psErrW ([1], 0) rfl rfl,
   bulk_idempotent_flag_only_get.2.2.2.2.2.1 tcW failInsert psErrW ([1], 0) rfl rfl,
   bulk_idempotent_flag_only_get.2.2.2.2.2.2.1 tcW failReplace psErrW ([1], 0) rfl rfl,
   bulk_idempotent_flag_only_get.2.2.2.2.2.2.2.1 failAppend psErrW rfl,
   bulk_idempotent_flag_only_get.2.2.2.2.2.2.2.2.1 failPrepend psErrW rfl,
   bulk_idempotent_flag_only_get.2.2.2.2.2.2.2.2.2.1 failIncrement psErrW rfl,
   bulk_idempotent_flag_only_get.2.2.2.2.2.2.2.2.2.2 failDecrement psErrW rfl⟩
